import Mathlib

/-!
# redis-badger: the command handlers of `main.go`

A shallow embedding of the three RESP command handlers `BadgerDB.Get`,
`BadgerDB.Set` and `BadgerDB.Ping` of `main.go`.

* A handler of the Go program has the type `func(conn *resp.Conn, args []resp.Value) bool`
  and works by side effect on the connection, on the database handle and on the
  server's log.  Here a handler is a pure function from the database state and the
  argument list to an `Outcome`: the database state after the call, the replies written
  on `conn` (in order), the lines logged, and the returned boolean.
* The storage library (`badger`) and the protocol library (`resp`) are imported by
  `main.go`, not part of it.  The handlers are therefore written against an `Engine`
  record holding exactly the storage calls the handlers make; `specEngine` is one such
  engine, following the storage contract of the specification, and `badgerEngine` is
  the engine with the behaviour of the library on an open database.
-/

namespace RedisBadger

/-! ## Data model -/

/-- One byte. -/
abbrev Byte := Fin 256

/-- The contents of a Go byte slice: keys and values are byte sequences. -/
abbrev ByteString := List Byte

/-- A Go `[]byte` whose nil-ness is observed by the program (`val == nil` in
`BadgerDB.Get`): `none` is the nil slice, `some bs` a non-nil slice holding `bs`
(`some []` is the empty, non-nil slice). -/
abbrev Slice := Option ByteString

/-- A Go `error` value, identified with its message (`errors.New(msg)`). -/
abbrev GoError := String

/-- A `resp.Value` as the handlers observe it, through the two accessors they call:
`args[i].Bytes()` and `args[i].String()`. -/
structure Value where
  Bytes : ByteString
  String : String
deriving DecidableEq, Repr

/-- One write on the connection: the `conn.Write…` method called and its argument. -/
inductive Reply where
  /-- The call `conn.WriteError(err)`, with the message of `err`. -/
  | Error (msg : GoError)
  /-- The call `conn.WriteNull()`. -/
  | Null
  /-- The call `conn.WriteBytes(b)`: a bulk string. -/
  | Bytes (b : ByteString)
  /-- The call `conn.WriteSimpleString(s)`. -/
  | SimpleString (s : String)
deriving DecidableEq, Repr

/-- What one handler call does: the database state it leaves, the replies it wrote on
the connection, the errors it printed on the server side (`fmt.Println(err)`,
`log.Print(err)`), and the boolean it returned to the server loop. -/
@[ext]
structure Outcome (σ : Type) where
  db : σ
  replies : List Reply
  logs : List GoError
  ret : Bool
deriving DecidableEq, Repr

/-! ## The storage calls made by the handlers -/

/-- A `*badger.Item` as `BadgerDB.Get` uses it: the result of its `Value()` call, an
error or a byte slice (which may be nil). -/
structure Item where
  Value : Except GoError Slice

/-- The storage library as a parameter: the calls that the closures of `BadgerDB.Get`
and `BadgerDB.Set` make on a transaction over a database in state `σ`.

* `txnGet db key` is `txn.Get(key)` in a read-only transaction: an item or an error
  (a missing key is an error of the library).
* `txnSet db key val` is `txn.Set(key, val)` in a read-write transaction: `none` for a
  nil error, `some e` when the entry is refused.
* `txnCommit db key val` is the commit of the read-write transaction that holds the
  single entry `(key, val)`: the new database state, or an error. -/
structure Engine (σ : Type) where
  txnGet : σ → ByteString → Except GoError Item
  txnSet : σ → ByteString → ByteString → Option GoError
  txnCommit : σ → ByteString → ByteString → Except GoError σ

/-- The call `b.db.View(func(txn) error { … })` of `BadgerDB.Get`, with the closure of
lines 47-59 inlined: returns the captured variable `val` after the call and the error
returned by `View`.  `val` starts nil; it is assigned only by `item.Value()`, which
yields a nil slice together with an error. -/
def Engine.View {σ : Type} (E : Engine σ) (db : σ) (key : ByteString) :
    Slice × Option GoError :=
  match E.txnGet db key with
  | .error err => (none, some err)
  | .ok item =>
    match item.Value with
    | .error err => (none, some err)
    | .ok val => (val, none)

/-- The call `b.db.Update(func(txn) error { err := txn.Set(key, val); return err })`
of `BadgerDB.Set`: returns the database state after the call and the error returned by
`Update`.  A read-write transaction whose closure fails is discarded, one whose closure
succeeds is committed; a failed commit writes nothing. -/
def Engine.Update {σ : Type} (E : Engine σ) (db : σ) (key val : ByteString) :
    σ × Option GoError :=
  match E.txnSet db key val with
  | some err => (db, some err)
  | none =>
    match E.txnCommit db key val with
    | .error err => (db, some err)
    | .ok db1 => (db1, none)

/-- The lines printed for an error value: `if err != nil { print(err) }`. -/
def logIfErr : Option GoError → List GoError
  | some err => [err]
  | none => []

/-! ## The handlers of `main.go` -/

/-- `func (b *BadgerDB) Get(conn *resp.Conn, args []resp.Value) bool`, lines 40-72. -/
def BadgerDB.Get {σ : Type} (E : Engine σ) (db : σ) (args : List Value) : Outcome σ :=
  match args with
  | [_, a1] =>
    let key := a1.Bytes
    let r := E.View db key
    match r.1 with
    | none => ⟨db, [Reply.Null], logIfErr r.2, true⟩
    | some val => ⟨db, [Reply.Bytes val], logIfErr r.2, true⟩
  | _ => ⟨db, [Reply.Error "ERR wrong number of arguments for 'get' command"], [], true⟩

/-- `func (b *BadgerDB) Set(conn *resp.Conn, args []resp.Value) bool`, lines 74-93. -/
def BadgerDB.Set {σ : Type} (E : Engine σ) (db : σ) (args : List Value) : Outcome σ :=
  match args with
  | [_, a1, a2] =>
    let key := a1.Bytes
    let val := a2.Bytes
    let r := E.Update db key val
    ⟨r.1, [Reply.Bytes key], logIfErr r.2, true⟩
  | _ => ⟨db, [Reply.Error "ERR wrong number of arguments for 'set' command"], [], true⟩

/-- `func (b *BadgerDB) Ping(conn *resp.Conn, args []resp.Value) bool`, lines 95-104.
`fmt.Sprintf("PONG %s", s)` is `"PONG "` followed by `s`. -/
def BadgerDB.Ping {σ : Type} (db : σ) (args : List Value) : Outcome σ :=
  match args with
  | [_] => ⟨db, [Reply.SimpleString "PONG"], [], true⟩
  | [_, a1] => ⟨db, [Reply.SimpleString ("PONG " ++ a1.String)], [], true⟩
  | _ => ⟨db, [Reply.Error "ERR wrong number of arguments for 'ping' command"], [], true⟩

/-! ## The command table and the connection loop -/

/-- The handlers registered in `main` (lines 129-131): `s.HandleFunc("set", kv.Set)`,
`s.HandleFunc("get", kv.Get)`, `s.HandleFunc("ping", kv.Ping)`. -/
inductive Command where
  | set
  | get
  | ping
deriving DecidableEq, Repr

/-- A decoded request for a registered command: the handler selected and the argument
list passed to it (the command token included, as `args[0]`). -/
structure Request where
  cmd : Command
  args : List Value
deriving DecidableEq, Repr

/-- The handler call made for one request, by the table of `main`. -/
def handle {σ : Type} (E : Engine σ) (db : σ) (r : Request) : Outcome σ :=
  match r.cmd with
  | Command.set => BadgerDB.Set E db r.args
  | Command.get => BadgerDB.Get E db r.args
  | Command.ping => BadgerDB.Ping db r.args

/-- Modelled from the spec: the per-connection loop of the protocol server (the `resp`
library, imported by `main.go`), as section 4.2 and 5 of the specification describe it:
the requests of a connection are handled one at a time in the order received, every
reply is written before the next request is handled, and the loop goes on while the
handler returns true.  Returns the final database state and all replies in order. -/
def serve {σ : Type} (E : Engine σ) : σ → List Request → σ × List Reply
  | db, [] => (db, [])
  | db, r :: rest =>
    let o := handle E db r
    if o.ret then
      let t := serve E o.db rest
      (t.1, o.replies ++ t.2)
    else
      (o.db, o.replies)

/-! ## A storage engine following the specification -/

/-- The state of the storage engine: the records, at most one per key, and whether the
engine has been closed (`BadgerDB.Close`, lines 36-38). -/
structure Store where
  records : List (ByteString × ByteString)
  closed : Bool
deriving DecidableEq, Repr

/-- The value recorded for `key`, if any. -/
def find (key : ByteString) : List (ByteString × ByteString) → Option ByteString
  | [] => none
  | (k, v) :: rest => if k = key then some v else find key rest

/-- Upsert of the record `(key, val)`: the value of an existing record for `key` is
replaced, otherwise the record is added. -/
def upsert (key val : ByteString) :
    List (ByteString × ByteString) → List (ByteString × ByteString)
  | [] => [(key, val)]
  | (k, v) :: rest =>
    if k = key then (key, val) :: rest else (k, v) :: upsert key val rest

/-- Modelled from the spec: the storage engine (the `badger` library, imported by
`main.go`), by the contract of section 4.1 of the specification.
`Get(key) -> Value | NotFound` is a read-only lookup, and a stored value, empty or not,
comes back as a non-nil slice; `Set(key, value) -> Success | Error` upserts the record;
storage operations after `Close` fail with `EngineClosedError` and change nothing. -/
def specEngine : Engine Store where
  txnGet := fun db key =>
    if db.closed then .error "EngineClosedError"
    else
      match find key db.records with
      | none => .error "NotFound"
      | some v => .ok ⟨.ok (some v)⟩
  txnSet := fun db _ _ => if db.closed then some "EngineClosedError" else none
  txnCommit := fun db key val =>
    if db.closed then .error "EngineClosedError"
    else .ok { db with records := upsert key val db.records }

/-- `func (b *BadgerDB) Close()`, lines 36-38, on `specEngine`: `b.db.Close()`. -/
def BadgerDB.Close (db : Store) : Store := { db with closed := true }

/-! ## The storage engine as the library behaves on an open database -/

/-- The state of an open database: its records, at most one per key. -/
abbrev Records := List (ByteString × ByteString)

/-- Modelled from the spec: the storage engine (the `badger` library, imported by
`main.go`) on an open database, by the contract of section 4.1 of the specification
(`Get(key) -> Value | NotFound` is a read-only lookup, `Set(key, value) -> Success | Error`
upserts the record), where what the contract leaves to the storage backend is taken as
the library has it:

* `txn.Get` and `txn.Set` refuse the empty key with an error;
* `txn.Set` may refuse further entries, which is the parameter `limits` (section 3:
  the storage backend may impose a limit on keys);
* `item.Value()` of a record whose value is empty is the nil slice, of any other record
  a non-nil slice holding the value;
* a missing key is an error of `txn.Get`. -/
def badgerEngine (limits : ByteString → ByteString → Option GoError) : Engine Records where
  txnGet := fun db key =>
    if key = [] then .error "Key cannot be empty"
    else
      match find key db with
      | none => .error "Key not found"
      | some v => .ok ⟨.ok (if v = [] then none else some v)⟩
  txnSet := fun _ key val => if key = [] then some "Key cannot be empty" else limits key val
  txnCommit := fun db key val => .ok (upsert key val db)

/-- The engine refusing no entry but those with the empty key. -/
def noLimits : ByteString → ByteString → Option GoError := fun _ _ => none

/-! ## Concrete requests used in the examples -/

/-- The command token `set`. -/
def tokSet : Value := ⟨[115, 101, 116], "set"⟩

/-- The command token `get`. -/
def tokGet : Value := ⟨[103, 101, 116], "get"⟩

/-- The command token `ping`. -/
def tokPing : Value := ⟨[112, 105, 110, 103], "ping"⟩

/-- The bulk string `A`. -/
def bulkA : Value := ⟨[65], "A"⟩

/-- The bulk string `B`. -/
def bulkB : Value := ⟨[66], "B"⟩

/-- The bulk string `1`. -/
def bulk1 : Value := ⟨[49], "1"⟩

/-- The bulk string `2`. -/
def bulk2 : Value := ⟨[50], "2"⟩

/-- The bulk string `hello`. -/
def bulkHello : Value := ⟨[104, 101, 108, 108, 111], "hello"⟩

/-- The empty bulk string. -/
def bulkEmpty : Value := ⟨[], ""⟩

/-- An open database holding no record. -/
def noRecords : Records := []

/-- An open database holding the record `B ↦ 2`. -/
def recordsB : Records := [([66], [50])]

/-- An open engine holding the record `B ↦ 2`. -/
def storeB : Store := ⟨[([66], [50])], false⟩

/-- The pipelined requests `SET A 1`, `GET A`, `SET A 2`, `GET A`. -/
def pipelineA : List Request :=
  [⟨Command.set, [tokSet, bulkA, bulk1]⟩, ⟨Command.get, [tokGet, bulkA]⟩,
   ⟨Command.set, [tokSet, bulkA, bulk2]⟩, ⟨Command.get, [tokGet, bulkA]⟩]

/-- The pipelined requests `SET A ""`, `GET A`, `SET A 2`, `GET A`: the first value is
empty. -/
def pipelineEmptyValue : List Request :=
  [⟨Command.set, [tokSet, bulkA, bulkEmpty]⟩, ⟨Command.get, [tokGet, bulkA]⟩,
   ⟨Command.set, [tokSet, bulkA, bulk2]⟩, ⟨Command.get, [tokGet, bulkA]⟩]

/-- The pipelined requests `SET "" 1`, `GET ""`, `SET "" 2`, `GET ""`: the key is
empty. -/
def pipelineEmptyKey : List Request :=
  [⟨Command.set, [tokSet, bulkEmpty, bulk1]⟩, ⟨Command.get, [tokGet, bulkEmpty]⟩,
   ⟨Command.set, [tokSet, bulkEmpty, bulk2]⟩, ⟨Command.get, [tokGet, bulkEmpty]⟩]

/-! ## Lemmas on the record list -/

theorem find_upsert_self (key val : ByteString) (rs : List (ByteString × ByteString)) :
    find key (upsert key val rs) = some val := by
  induction rs with
  | nil => simp [upsert, find]
  | cons hd tl ih =>
    obtain ⟨k, v⟩ := hd
    by_cases h : k = key
    · simp [upsert, find, h]
    · simp [upsert, find, h, ih]

theorem find_upsert_other (key val key2 : ByteString) (rs : List (ByteString × ByteString))
    (hne : key2 ≠ key) : find key2 (upsert key val rs) = find key2 rs := by
  induction rs with
  | nil => simp [upsert, find, Ne.symm hne]
  | cons hd tl ih =>
    obtain ⟨k, v⟩ := hd
    by_cases h : k = key
    · subst h
      simp [upsert, find, Ne.symm hne]
    · by_cases h2 : k = key2
      · subst h2
        simp [upsert, find, h]
      · simp [upsert, find, h, h2, ih]

/-! ## Lemmas on the storage calls -/

theorem view_err_val {σ : Type} (E : Engine σ) (db : σ) (key : ByteString) (err : GoError)
    (h : (E.View db key).2 = some err) : (E.View db key).1 = none := by
  unfold Engine.View at h ⊢
  cases hg : E.txnGet db key with
  | error e => rfl
  | ok item =>
    cases hv : item.Value with
    | error e => simp [hv]
    | ok val => simp [hg, hv] at h

theorem update_err_db {σ : Type} (E : Engine σ) (db : σ) (key val : ByteString)
    (err : GoError) (h : (E.Update db key val).2 = some err) :
    (E.Update db key val).1 = db := by
  unfold Engine.Update at h ⊢
  cases hs : E.txnSet db key val with
  | some e => rfl
  | none =>
    cases hc : E.txnCommit db key val with
    | error e => simp [hc]
    | ok db1 => simp [hs, hc] at h

theorem specEngine_view_open (db : Store) (key : ByteString) (hopen : db.closed = false) :
    specEngine.View db key =
      match find key db.records with
      | none => (none, some "NotFound")
      | some v => (some v, none) := by
  unfold Engine.View specEngine
  simp only [hopen]
  cases find key db.records <;> rfl

theorem specEngine_view_closed (db : Store) (key : ByteString) (hclosed : db.closed = true) :
    specEngine.View db key = (none, some "EngineClosedError") := by
  unfold Engine.View specEngine
  simp [hclosed]

theorem specEngine_update_open (db : Store) (key val : ByteString)
    (hopen : db.closed = false) :
    specEngine.Update db key val = ({ db with records := upsert key val db.records }, none) := by
  unfold Engine.Update specEngine
  simp [hopen]

theorem specEngine_update_closed (db : Store) (key val : ByteString)
    (hclosed : db.closed = true) :
    specEngine.Update db key val = (db, some "EngineClosedError") := by
  unfold Engine.Update specEngine
  simp [hclosed]

/-! ## The handlers on the engine of the specification -/

theorem set_on_open (db : Store) (hopen : db.closed = false) (a0 k v : Value) :
    BadgerDB.Set specEngine db [a0, k, v] =
      ⟨{ db with records := upsert k.Bytes v.Bytes db.records }, [Reply.Bytes k.Bytes], [],
        true⟩ := by
  simp [BadgerDB.Set, specEngine_update_open db k.Bytes v.Bytes hopen, logIfErr]

theorem set_on_closed (db : Store) (hclosed : db.closed = true) (a0 k v : Value) :
    BadgerDB.Set specEngine db [a0, k, v] =
      ⟨db, [Reply.Bytes k.Bytes], ["EngineClosedError"], true⟩ := by
  simp [BadgerDB.Set, specEngine_update_closed db k.Bytes v.Bytes hclosed, logIfErr]

theorem get_on_open_found (db : Store) (hopen : db.closed = false) (a0 k : Value)
    (val : ByteString) (hfind : find k.Bytes db.records = some val) :
    BadgerDB.Get specEngine db [a0, k] = ⟨db, [Reply.Bytes val], [], true⟩ := by
  simp [BadgerDB.Get, specEngine_view_open db k.Bytes hopen, hfind, logIfErr]

theorem get_on_open_absent (db : Store) (hopen : db.closed = false) (a0 k : Value)
    (hfind : find k.Bytes db.records = none) :
    BadgerDB.Get specEngine db [a0, k] = ⟨db, [Reply.Null], ["NotFound"], true⟩ := by
  simp [BadgerDB.Get, specEngine_view_open db k.Bytes hopen, hfind, logIfErr]

theorem get_on_closed (db : Store) (hclosed : db.closed = true) (a0 k : Value) :
    BadgerDB.Get specEngine db [a0, k] = ⟨db, [Reply.Null], ["EngineClosedError"], true⟩ := by
  simp [BadgerDB.Get, specEngine_view_closed db k.Bytes hclosed, logIfErr]

/-! ## The handlers on the engine of the library -/

theorem badger_update_ok (limits : ByteString → ByteString → Option GoError) (db : Records)
    (key val : ByteString) (hupd : ((badgerEngine limits).Update db key val).2 = none) :
    key ≠ [] ∧ (badgerEngine limits).Update db key val = (upsert key val db, none) := by
  unfold Engine.Update badgerEngine at hupd ⊢
  by_cases hk : key = []
  · simp [hk] at hupd
  · cases hl : limits key val with
    | some e => simp [hk, hl] at hupd
    | none => simp [hk, hl]

theorem badger_view_found (limits : ByteString → ByteString → Option GoError) (db : Records)
    (key val : ByteString) (hkey : key ≠ []) (hval : val ≠ [])
    (hfind : find key db = some val) :
    (badgerEngine limits).View db key = (some val, none) := by
  unfold Engine.View badgerEngine
  simp [hkey, hfind, hval]

theorem badger_set_ok (limits : ByteString → ByteString → Option GoError) (db : Records)
    (a0 k v : Value) (hupd : ((badgerEngine limits).Update db k.Bytes v.Bytes).2 = none) :
    BadgerDB.Set (badgerEngine limits) db [a0, k, v] =
      ⟨upsert k.Bytes v.Bytes db, [Reply.Bytes k.Bytes], [], true⟩ := by
  simp [BadgerDB.Set, (badger_update_ok limits db k.Bytes v.Bytes hupd).2, logIfErr]

theorem badger_get_found (limits : ByteString → ByteString → Option GoError) (db : Records)
    (a0 k : Value) (val : ByteString) (hkey : k.Bytes ≠ []) (hval : val ≠ [])
    (hfind : find k.Bytes db = some val) :
    BadgerDB.Get (badgerEngine limits) db [a0, k] = ⟨db, [Reply.Bytes val], [], true⟩ := by
  simp [BadgerDB.Get, badger_view_found limits db k.Bytes val hkey hval hfind, logIfErr]

/-! ## Arity errors -/

/-- C3: for every storage engine, every database state and every argument list whose
length is not 3, `BadgerDB.Set` writes exactly the error reply
`ERR wrong number of arguments for 'set' command`, logs nothing, returns true, and
leaves the database state as it was. -/
theorem set_wrong_arity {σ : Type} (E : Engine σ) (db : σ) (args : List Value)
    (harity : args.length ≠ 3) :
    BadgerDB.Set E db args =
      ⟨db, [Reply.Error "ERR wrong number of arguments for 'set' command"], [], true⟩ := by
  rcases args with _ | ⟨a0, _ | ⟨a1, _ | ⟨a2, _ | ⟨a3, rest⟩⟩⟩⟩ <;>
    simp [BadgerDB.Set] at harity ⊢

/-- Instance of C3: `SET A` on a database holding `B ↦ 2` is refused and the record
list is the same afterwards. -/
theorem set_wrong_arity_witness :
    [tokSet, bulkA].length ≠ 3 ∧
    BadgerDB.Set specEngine storeB [tokSet, bulkA] =
      ⟨storeB, [Reply.Error "ERR wrong number of arguments for 'set' command"], [], true⟩ :=
  ⟨by decide, set_wrong_arity specEngine storeB [tokSet, bulkA] (by decide)⟩

/-- C4: for every argument list whose length is not 2, `BadgerDB.Get` writes exactly
the error reply `ERR wrong number of arguments for 'get' command`, whatever the storage
engine and the database state are (no storage call enters the result), and the database
state is unchanged. -/
theorem get_wrong_arity {σ : Type} (E : Engine σ) (db : σ) (args : List Value)
    (harity : args.length ≠ 2) :
    BadgerDB.Get E db args =
      ⟨db, [Reply.Error "ERR wrong number of arguments for 'get' command"], [], true⟩ := by
  rcases args with _ | ⟨a0, _ | ⟨a1, _ | ⟨a2, rest⟩⟩⟩ <;>
    simp [BadgerDB.Get] at harity ⊢

/-- Instance of C4: `GET B 2` on a database holding `B ↦ 2` is refused. -/
theorem get_wrong_arity_witness :
    [tokGet, bulkB, bulk2].length ≠ 2 ∧
    BadgerDB.Get specEngine storeB [tokGet, bulkB, bulk2] =
      ⟨storeB, [Reply.Error "ERR wrong number of arguments for 'get' command"], [], true⟩ :=
  ⟨by decide, get_wrong_arity specEngine storeB [tokGet, bulkB, bulk2] (by decide)⟩

/-! ## Ping -/

/-- C5: for every argument list, `BadgerDB.Ping` replies the simple string `PONG` when
there is one argument, the simple string `PONG ` followed by the text of `args[1]` when
there are two, and the error `ERR wrong number of arguments for 'ping' command` for
every other length; in all three cases the database state is returned untouched. -/
theorem ping_reply {σ : Type} (db : σ) (args : List Value) :
    (args.length = 1 →
      BadgerDB.Ping db args = ⟨db, [Reply.SimpleString "PONG"], [], true⟩) ∧
    (∀ h : args.length = 2,
      BadgerDB.Ping db args =
        ⟨db, [Reply.SimpleString ("PONG " ++ (args.get ⟨1, by omega⟩).String)], [], true⟩) ∧
    (args.length ≠ 1 → args.length ≠ 2 →
      BadgerDB.Ping db args =
        ⟨db, [Reply.Error "ERR wrong number of arguments for 'ping' command"], [], true⟩) := by
  refine ⟨?_, ?_, ?_⟩
  · intro h
    rcases args with _ | ⟨a0, _ | ⟨a1, rest⟩⟩ <;> simp [BadgerDB.Ping] at h ⊢
  · intro h
    rcases args with _ | ⟨a0, _ | ⟨a1, _ | ⟨a2, rest⟩⟩⟩
    · simp at h
    · simp at h
    · rfl
    · simp at h
  · intro h1 h2
    rcases args with _ | ⟨a0, _ | ⟨a1, _ | ⟨a2, rest⟩⟩⟩ <;> simp [BadgerDB.Ping] at h1 h2 ⊢

/-- Instance of C5: `PING` gives `PONG`, `PING hello` gives `PONG hello`, and
`PING A B` is an arity error. -/
theorem ping_reply_witness :
    BadgerDB.Ping storeB [tokPing] = ⟨storeB, [Reply.SimpleString "PONG"], [], true⟩ ∧
    BadgerDB.Ping storeB [tokPing, bulkHello] =
      ⟨storeB, [Reply.SimpleString "PONG hello"], [], true⟩ ∧
    BadgerDB.Ping storeB [tokPing, bulkA, bulkB] =
      ⟨storeB, [Reply.Error "ERR wrong number of arguments for 'ping' command"], [], true⟩ :=
  ⟨(ping_reply storeB [tokPing]).1 rfl,
   (ping_reply storeB [tokPing, bulkHello]).2.1 rfl,
   (ping_reply storeB [tokPing, bulkA, bulkB]).2.2 (by decide) (by decide)⟩

/-! ## Every handler keeps the connection open and writes one reply -/

/-- C9: for every storage engine, database state and argument list, each of
`BadgerDB.Get`, `BadgerDB.Set` and `BadgerDB.Ping` returns true and writes exactly one
reply on the connection. -/
theorem handlers_continue_one_reply {σ : Type} (E : Engine σ) (db : σ) (args : List Value) :
    ((BadgerDB.Get E db args).ret = true ∧ (BadgerDB.Get E db args).replies.length = 1) ∧
    ((BadgerDB.Set E db args).ret = true ∧ (BadgerDB.Set E db args).replies.length = 1) ∧
    ((BadgerDB.Ping db args).ret = true ∧ (BadgerDB.Ping db args).replies.length = 1) := by
  refine ⟨?_, ?_, ?_⟩
  · rcases args with _ | ⟨a0, _ | ⟨a1, _ | ⟨a2, rest⟩⟩⟩ <;> simp [BadgerDB.Get]
    cases (E.View db a1.Bytes).1 <;> simp
  · rcases args with _ | ⟨a0, _ | ⟨a1, _ | ⟨a2, _ | ⟨a3, rest⟩⟩⟩⟩ <;> simp [BadgerDB.Set]
  · rcases args with _ | ⟨a0, _ | ⟨a1, _ | ⟨a2, rest⟩⟩⟩ <;> simp [BadgerDB.Ping]

/-! ## Storage errors are logged, not sent to the client -/

/-- C7: for every storage engine, database state and argument list `[set, K, V]`,
`BadgerDB.Set` writes the single reply bulk `K` and returns true, whether the storage
update succeeds or fails; when the update returns an error, that error is logged, no
error reply is written, and the database state after the call is the state before. -/
theorem set_reply_is_key {σ : Type} (E : Engine σ) (db : σ) (a0 k v : Value) :
    (BadgerDB.Set E db [a0, k, v]).replies = [Reply.Bytes k.Bytes] ∧
    (BadgerDB.Set E db [a0, k, v]).ret = true ∧
    ((E.Update db k.Bytes v.Bytes).2 = none →
      (BadgerDB.Set E db [a0, k, v]).db = (E.Update db k.Bytes v.Bytes).1 ∧
      (BadgerDB.Set E db [a0, k, v]).logs = []) ∧
    (∀ err, (E.Update db k.Bytes v.Bytes).2 = some err →
      (BadgerDB.Set E db [a0, k, v]).db = db ∧
      (BadgerDB.Set E db [a0, k, v]).logs = [err]) := by
  refine ⟨rfl, rfl, ?_, ?_⟩
  · intro h
    simp [BadgerDB.Set, h, logIfErr]
  · intro err h
    simp [BadgerDB.Set, h, logIfErr, update_err_db E db k.Bytes v.Bytes err h]

/-- Instance of C7: on a closed engine the update of `SET A 1` fails with
`EngineClosedError`; the client still receives bulk `A`, and nothing is stored. On the
open engine the update succeeds and the client receives bulk `A` as well. -/
theorem set_reply_is_key_witness :
    (specEngine.Update (BadgerDB.Close storeB) bulkA.Bytes bulk1.Bytes).2
        = some "EngineClosedError" ∧
    BadgerDB.Set specEngine (BadgerDB.Close storeB) [tokSet, bulkA, bulk1] =
      ⟨BadgerDB.Close storeB, [Reply.Bytes [65]], ["EngineClosedError"], true⟩ ∧
    (specEngine.Update storeB bulkA.Bytes bulk1.Bytes).2 = none ∧
    BadgerDB.Set specEngine storeB [tokSet, bulkA, bulk1] =
      ⟨⟨[([66], [50]), ([65], [49])], false⟩, [Reply.Bytes [65]], [], true⟩ := by
  have hc := set_reply_is_key specEngine (BadgerDB.Close storeB) tokSet bulkA bulk1
  have ho := set_reply_is_key specEngine storeB tokSet bulkA bulk1
  have hce : (specEngine.Update (BadgerDB.Close storeB) bulkA.Bytes bulk1.Bytes).2
      = some "EngineClosedError" := by
    rw [specEngine_update_closed _ _ _ rfl]
  have hoe : (specEngine.Update storeB bulkA.Bytes bulk1.Bytes).2 = none := by
    rw [specEngine_update_open _ _ _ rfl]
  refine ⟨hce, ?_, hoe, ?_⟩
  · have h := hc.2.2.2 _ hce
    exact Outcome.ext h.1 hc.1 h.2 hc.2.1
  · have h := ho.2.2.1 hoe
    refine Outcome.ext ?_ ho.1 h.2 ho.2.1
    rw [h.1, specEngine_update_open _ _ _ rfl]
    rfl

/-- C8: for every storage engine, database state and argument list `[get, K]`: when
the storage lookup returns an error, whatever the error is, `BadgerDB.Get` writes the
single reply null (the reply it gives for a nil value), logs the error and writes no
error reply; and whenever `BadgerDB.Get` writes a bulk string, the lookup returned no
error and a non-nil value, which is the bulk string written. -/
theorem get_lookup_error_gives_null {σ : Type} (E : Engine σ) (db : σ) (a0 k : Value) :
    (∀ err, (E.View db k.Bytes).2 = some err →
      BadgerDB.Get E db [a0, k] = ⟨db, [Reply.Null], [err], true⟩) ∧
    (∀ b, Reply.Bytes b ∈ (BadgerDB.Get E db [a0, k]).replies →
      E.View db k.Bytes = (some b, none)) := by
  constructor
  · intro err h
    simp [BadgerDB.Get, view_err_val E db k.Bytes err h, h, logIfErr]
  · intro b hb
    cases h1 : (E.View db k.Bytes).1 with
    | none => simp [BadgerDB.Get, h1] at hb
    | some val =>
      simp [BadgerDB.Get, h1] at hb
      cases h2 : (E.View db k.Bytes).2 with
      | none =>
        subst hb
        exact Prod.ext h1 h2
      | some err =>
        have := view_err_val E db k.Bytes err h2
        simp [h1] at this

/-- Instance of C8: on a closed engine holding `B ↦ 2` the lookup of `GET B` fails
with `EngineClosedError` (not a missing key) and the reply is null; on the open engine
`GET B` replies bulk `2` and the lookup returned the non-nil value `2` without error. -/
theorem get_lookup_error_gives_null_witness :
    (specEngine.View (BadgerDB.Close storeB) bulkB.Bytes).2 = some "EngineClosedError" ∧
    BadgerDB.Get specEngine (BadgerDB.Close storeB) [tokGet, bulkB] =
      ⟨BadgerDB.Close storeB, [Reply.Null], ["EngineClosedError"], true⟩ ∧
    Reply.Bytes [50] ∈ (BadgerDB.Get specEngine storeB [tokGet, bulkB]).replies ∧
    specEngine.View storeB bulkB.Bytes = (some [50], none) := by
  have hce : (specEngine.View (BadgerDB.Close storeB) bulkB.Bytes).2
      = some "EngineClosedError" := by
    rw [specEngine_view_closed _ _ rfl]
  have hv : specEngine.View storeB bulkB.Bytes = (some [50], none) := by
    rw [specEngine_view_open _ _ rfl]
    rfl
  have hmem : Reply.Bytes [50] ∈ (BadgerDB.Get specEngine storeB [tokGet, bulkB]).replies := by
    simp [BadgerDB.Get, hv]
  exact ⟨hce,
    (get_lookup_error_gives_null specEngine (BadgerDB.Close storeB) tokGet bulkB).1 _ hce,
    hmem,
    (get_lookup_error_gives_null specEngine storeB tokGet bulkB).2 _ hmem⟩

/-! ## Reading and writing records -/

/-- C2: on the engine of the specification, for every database state and every key
`K` that has no record, `BadgerDB.Get` on `[get, K]` writes the single reply null (no
error reply), returns true, and leaves the database state unchanged. -/
theorem get_absent_key (db : Store) (a0 k : Value) (habsent : find k.Bytes db.records = none) :
    (BadgerDB.Get specEngine db [a0, k]).replies = [Reply.Null] ∧
    (BadgerDB.Get specEngine db [a0, k]).db = db ∧
    (BadgerDB.Get specEngine db [a0, k]).ret = true := by
  cases hc : db.closed with
  | true => simp [get_on_closed db hc]
  | false => simp [get_on_open_absent db hc a0 k habsent]

/-- Instance of C2: `GET A` on a database holding only `B ↦ 2` replies null. -/
theorem get_absent_key_witness :
    find bulkA.Bytes storeB.records = none ∧
    (BadgerDB.Get specEngine storeB [tokGet, bulkA]).replies = [Reply.Null] ∧
    (BadgerDB.Get specEngine storeB [tokGet, bulkA]).db = storeB ∧
    (BadgerDB.Get specEngine storeB [tokGet, bulkA]).ret = true :=
  ⟨by decide, get_absent_key storeB tokGet bulkA (by decide)⟩

/-- C1, as stated, fails on an open database, for the empty value and for the empty
key.  `SET A ""` is stored and acknowledged with bulk `A`, and the following `GET A`
replies null: the empty value is read back as the nil slice, which `BadgerDB.Get` takes
for a missing value.  `SET "" 1` is refused by the engine, which `BadgerDB.Set` only
logs while it acknowledges with the empty bulk string, and `GET ""` replies null. -/
theorem set_then_get_empty_counterexample :
    (BadgerDB.Set (badgerEngine noLimits) noRecords [tokSet, bulkA, bulkEmpty])
      = ⟨[([65], [])], [Reply.Bytes [65]], [], true⟩ ∧
    (BadgerDB.Get (badgerEngine noLimits)
        (BadgerDB.Set (badgerEngine noLimits) noRecords [tokSet, bulkA, bulkEmpty]).db
        [tokGet, bulkA]).replies = [Reply.Null] ∧
    (BadgerDB.Get (badgerEngine noLimits)
        (BadgerDB.Set (badgerEngine noLimits) noRecords [tokSet, bulkA, bulkEmpty]).db
        [tokGet, bulkA]).replies ≠ [Reply.Bytes bulkEmpty.Bytes] ∧
    (BadgerDB.Set (badgerEngine noLimits) noRecords [tokSet, bulkEmpty, bulk1])
      = ⟨[], [Reply.Bytes []], ["Key cannot be empty"], true⟩ ∧
    (BadgerDB.Get (badgerEngine noLimits)
        (BadgerDB.Set (badgerEngine noLimits) noRecords [tokSet, bulkEmpty, bulk1]).db
        [tokGet, bulkEmpty]).replies = [Reply.Null] ∧
    (BadgerDB.Get (badgerEngine noLimits)
        (BadgerDB.Set (badgerEngine noLimits) noRecords [tokSet, bulkEmpty, bulk1]).db
        [tokGet, bulkEmpty]).replies ≠ [Reply.Bytes bulk1.Bytes] := by
  refine ⟨rfl, rfl, ?_, rfl, rfl, ?_⟩
  · have h : (BadgerDB.Get (badgerEngine noLimits)
        (BadgerDB.Set (badgerEngine noLimits) noRecords [tokSet, bulkA, bulkEmpty]).db
        [tokGet, bulkA]).replies = [Reply.Null] := rfl
    rw [h]
    simp
  · have h : (BadgerDB.Get (badgerEngine noLimits)
        (BadgerDB.Set (badgerEngine noLimits) noRecords [tokSet, bulkEmpty, bulk1]).db
        [tokGet, bulkEmpty]).replies = [Reply.Null] := rfl
    rw [h]
    simp

/-- C1, amended: for every database state, every key `K` and every non-empty value `V`
such that the storage update made by `BadgerDB.Set` on `[set, K, V]` succeeds (the
engine refuses the empty key, and whatever entries `limits` refuses): `BadgerDB.Get` on
`[get, K]`, run on the database left by that `Set`, writes the single reply bulk `V`. -/
theorem set_then_get (limits : ByteString → ByteString → Option GoError) (db : Records)
    (a0 k v b0 k2 : Value) (hkey : k2.Bytes = k.Bytes) (hval : v.Bytes ≠ [])
    (hupd : ((badgerEngine limits).Update db k.Bytes v.Bytes).2 = none) :
    (BadgerDB.Get (badgerEngine limits)
        (BadgerDB.Set (badgerEngine limits) db [a0, k, v]).db [b0, k2]).replies
      = [Reply.Bytes v.Bytes] := by
  have hk : k2.Bytes ≠ [] := by
    rw [hkey]
    exact (badger_update_ok limits db k.Bytes v.Bytes hupd).1
  rw [badger_set_ok limits db a0 k v hupd]
  rw [badger_get_found limits (upsert k.Bytes v.Bytes db) b0 k2 v.Bytes hk hval
    (by rw [hkey]; exact find_upsert_self _ _ _)]

/-- Instance of C1, amended: on the database holding `B ↦ 2`, `SET B 1` succeeds and
the following `GET B` replies bulk `1`, the new value. -/
theorem set_then_get_witness :
    bulkB.Bytes = bulkB.Bytes ∧ bulk1.Bytes ≠ [] ∧
    ((badgerEngine noLimits).Update recordsB bulkB.Bytes bulk1.Bytes).2 = none ∧
    (BadgerDB.Get (badgerEngine noLimits)
        (BadgerDB.Set (badgerEngine noLimits) recordsB [tokSet, bulkB, bulk1]).db
        [tokGet, bulkB]).replies = [Reply.Bytes [49]] :=
  ⟨rfl, by decide, rfl,
    set_then_get noLimits recordsB tokSet bulkB bulk1 tokGet bulkB rfl (by decide) rfl⟩

/-! ## Pipelined requests -/

/-- C6, as stated, fails for every key and values: on an open database holding no
record, the requests `SET A ""`, `GET A`, `SET A 2`, `GET A` are answered bulk `A`,
null, bulk `A`, bulk `2` (the empty value is read back as nil), and the requests
`SET "" 1`, `GET ""`, `SET "" 2`, `GET ""` are answered with the empty bulk string,
null, the empty bulk string, null (the empty key is refused). -/
theorem pipeline_empty_counterexample :
    (serve (badgerEngine noLimits) noRecords pipelineEmptyValue).2
      = [Reply.Bytes [65], Reply.Null, Reply.Bytes [65], Reply.Bytes [50]] ∧
    (serve (badgerEngine noLimits) noRecords pipelineEmptyValue).2
      ≠ [Reply.Bytes [65], Reply.Bytes [], Reply.Bytes [65], Reply.Bytes [50]] ∧
    (serve (badgerEngine noLimits) noRecords pipelineEmptyKey).2
      = [Reply.Bytes [], Reply.Null, Reply.Bytes [], Reply.Null] ∧
    (serve (badgerEngine noLimits) noRecords pipelineEmptyKey).2
      ≠ [Reply.Bytes [], Reply.Bytes [49], Reply.Bytes [], Reply.Bytes [50]] := by
  have h1 : (serve (badgerEngine noLimits) noRecords pipelineEmptyValue).2
      = [Reply.Bytes [65], Reply.Null, Reply.Bytes [65], Reply.Bytes [50]] := rfl
  have h2 : (serve (badgerEngine noLimits) noRecords pipelineEmptyKey).2
      = [Reply.Bytes [], Reply.Null, Reply.Bytes [], Reply.Null] := rfl
  rw [h1, h2]
  exact ⟨rfl, by simp, rfl, by simp⟩

/-- C6, amended: from every database state, the requests `SET A 1`, `GET A`, `SET A 2`,
`GET A`, handled in sequence, are answered bulk `A`, bulk `1`, bulk `A`, bulk `2`, in
request order.  More generally, from every database state, for every key `K` and
non-empty values `V1`, `V2` such that the two storage updates succeed (the engine
refuses the empty key, and whatever entries `limits` refuses): running `SET K V1`,
`GET K`, `SET K V2`, `GET K`, each handler on the database left by the one before,
`Set` replies bulk `K`, `Get` bulk `V1`, `Set` bulk `K`, `Get` bulk `V2`, and the
connection loop writes these four replies in this order. -/
theorem pipeline_set_get :
    (∀ db : Records, (serve (badgerEngine noLimits) db pipelineA).2
      = [Reply.Bytes [65], Reply.Bytes [49], Reply.Bytes [65], Reply.Bytes [50]]) ∧
    (∀ (limits : ByteString → ByteString → Option GoError) (db : Records)
      (s g k v1 v2 : Value),
      v1.Bytes ≠ [] → v2.Bytes ≠ [] →
      ((badgerEngine limits).Update db k.Bytes v1.Bytes).2 = none →
      ((badgerEngine limits).Update
        ((badgerEngine limits).Update db k.Bytes v1.Bytes).1 k.Bytes v2.Bytes).2 = none →
      (BadgerDB.Set (badgerEngine limits) db [s, k, v1]).replies = [Reply.Bytes k.Bytes] ∧
      (BadgerDB.Get (badgerEngine limits)
        (BadgerDB.Set (badgerEngine limits) db [s, k, v1]).db [g, k]).replies
        = [Reply.Bytes v1.Bytes] ∧
      (BadgerDB.Set (badgerEngine limits)
        (BadgerDB.Get (badgerEngine limits)
          (BadgerDB.Set (badgerEngine limits) db [s, k, v1]).db [g, k]).db
        [s, k, v2]).replies = [Reply.Bytes k.Bytes] ∧
      (BadgerDB.Get (badgerEngine limits)
        (BadgerDB.Set (badgerEngine limits)
          (BadgerDB.Get (badgerEngine limits)
            (BadgerDB.Set (badgerEngine limits) db [s, k, v1]).db [g, k]).db
          [s, k, v2]).db [g, k]).replies = [Reply.Bytes v2.Bytes] ∧
      (serve (badgerEngine limits) db
        [⟨Command.set, [s, k, v1]⟩, ⟨Command.get, [g, k]⟩,
         ⟨Command.set, [s, k, v2]⟩, ⟨Command.get, [g, k]⟩]).2
        = [Reply.Bytes k.Bytes, Reply.Bytes v1.Bytes, Reply.Bytes k.Bytes,
            Reply.Bytes v2.Bytes]) := by
  have general : ∀ (limits : ByteString → ByteString → Option GoError) (db : Records)
      (s g k v1 v2 : Value),
      v1.Bytes ≠ [] → v2.Bytes ≠ [] →
      ((badgerEngine limits).Update db k.Bytes v1.Bytes).2 = none →
      ((badgerEngine limits).Update
        ((badgerEngine limits).Update db k.Bytes v1.Bytes).1 k.Bytes v2.Bytes).2 = none →
      BadgerDB.Set (badgerEngine limits) db [s, k, v1]
        = ⟨upsert k.Bytes v1.Bytes db, [Reply.Bytes k.Bytes], [], true⟩ ∧
      BadgerDB.Get (badgerEngine limits) (upsert k.Bytes v1.Bytes db) [g, k]
        = ⟨upsert k.Bytes v1.Bytes db, [Reply.Bytes v1.Bytes], [], true⟩ ∧
      BadgerDB.Set (badgerEngine limits) (upsert k.Bytes v1.Bytes db) [s, k, v2]
        = ⟨upsert k.Bytes v2.Bytes (upsert k.Bytes v1.Bytes db), [Reply.Bytes k.Bytes], [],
            true⟩ ∧
      BadgerDB.Get (badgerEngine limits)
          (upsert k.Bytes v2.Bytes (upsert k.Bytes v1.Bytes db)) [g, k]
        = ⟨upsert k.Bytes v2.Bytes (upsert k.Bytes v1.Bytes db), [Reply.Bytes v2.Bytes], [],
            true⟩ := by
    intro limits db s g k v1 v2 h1 h2 hu1 hu2
    have hk := (badger_update_ok limits db k.Bytes v1.Bytes hu1).1
    rw [(badger_update_ok limits db k.Bytes v1.Bytes hu1).2] at hu2
    exact ⟨badger_set_ok limits db s k v1 hu1,
      badger_get_found limits _ g k v1.Bytes hk h1 (find_upsert_self _ _ _),
      badger_set_ok limits _ s k v2 hu2,
      badger_get_found limits _ g k v2.Bytes hk h2 (find_upsert_self _ _ _)⟩
  have chained : ∀ (limits : ByteString → ByteString → Option GoError) (db : Records)
      (s g k v1 v2 : Value),
      v1.Bytes ≠ [] → v2.Bytes ≠ [] →
      ((badgerEngine limits).Update db k.Bytes v1.Bytes).2 = none →
      ((badgerEngine limits).Update
        ((badgerEngine limits).Update db k.Bytes v1.Bytes).1 k.Bytes v2.Bytes).2 = none →
      (serve (badgerEngine limits) db
        [⟨Command.set, [s, k, v1]⟩, ⟨Command.get, [g, k]⟩,
         ⟨Command.set, [s, k, v2]⟩, ⟨Command.get, [g, k]⟩]).2
        = [Reply.Bytes k.Bytes, Reply.Bytes v1.Bytes, Reply.Bytes k.Bytes,
            Reply.Bytes v2.Bytes] := by
    intro limits db s g k v1 v2 h1 h2 hu1 hu2
    obtain ⟨e1, e2, e3, e4⟩ := general limits db s g k v1 v2 h1 h2 hu1 hu2
    simp only [serve, handle, e1, e2, e3, e4]
    simp
  refine ⟨?_, ?_⟩
  · intro db
    exact chained noLimits db tokSet tokGet bulkA bulk1 bulk2 (by decide) (by decide) rfl rfl
  · intro limits db s g k v1 v2 h1 h2 hu1 hu2
    obtain ⟨e1, e2, e3, e4⟩ := general limits db s g k v1 v2 h1 h2 hu1 hu2
    refine ⟨?_, ?_, ?_, ?_, chained limits db s g k v1 v2 h1 h2 hu1 hu2⟩
    · rw [e1]
    · rw [e1, e2]
    · rw [e1, e2, e3]
    · rw [e1, e2, e3, e4]

/-- Instance of C6, amended: from the database holding `B ↦ 2`, the requests `SET B 1`,
`GET B`, `SET B 2`, `GET B` are answered bulk `B`, bulk `1`, bulk `B`, bulk `2`: the
first `SET` overwrites the record, and each `GET` sees the latest `SET`. -/
theorem pipeline_set_get_witness :
    bulk1.Bytes ≠ [] ∧ bulk2.Bytes ≠ [] ∧
    ((badgerEngine noLimits).Update recordsB bulkB.Bytes bulk1.Bytes).2 = none ∧
    ((badgerEngine noLimits).Update
      ((badgerEngine noLimits).Update recordsB bulkB.Bytes bulk1.Bytes).1
      bulkB.Bytes bulk2.Bytes).2 = none ∧
    (serve (badgerEngine noLimits) recordsB
      [⟨Command.set, [tokSet, bulkB, bulk1]⟩, ⟨Command.get, [tokGet, bulkB]⟩,
       ⟨Command.set, [tokSet, bulkB, bulk2]⟩, ⟨Command.get, [tokGet, bulkB]⟩]).2
      = [Reply.Bytes [66], Reply.Bytes [49], Reply.Bytes [66], Reply.Bytes [50]] :=
  ⟨by decide, by decide, rfl, rfl,
    (pipeline_set_get.2 noLimits recordsB tokSet tokGet bulkB bulk1 bulk2
      (by decide) (by decide) rfl rfl).2.2.2.2⟩

/-! ## Frame -/

/-- C10: on the engine of the specification, for every database state, keys `K` and
`K2` with `K2` different from `K`, and value `V`: `BadgerDB.Set` on `[set, K, V]` leaves
the record of `K2` as it was, and a following `[get, K2]` writes the replies (and logs
the lines) it would have written before the `SET`.  And for every storage engine,
database state and argument list, `BadgerDB.Get` and `BadgerDB.Ping` return the
database state they were given. -/
theorem handlers_frame :
    (∀ (db : Store) (a0 k v b0 k2 : Value), k2.Bytes ≠ k.Bytes →
      find k2.Bytes (BadgerDB.Set specEngine db [a0, k, v]).db.records
        = find k2.Bytes db.records ∧
      (BadgerDB.Get specEngine (BadgerDB.Set specEngine db [a0, k, v]).db [b0, k2]).replies
        = (BadgerDB.Get specEngine db [b0, k2]).replies ∧
      (BadgerDB.Get specEngine (BadgerDB.Set specEngine db [a0, k, v]).db [b0, k2]).logs
        = (BadgerDB.Get specEngine db [b0, k2]).logs) ∧
    (∀ (σ : Type) (E : Engine σ) (db : σ) (args : List Value),
      (BadgerDB.Get E db args).db = db) ∧
    (∀ (σ : Type) (db : σ) (args : List Value), (BadgerDB.Ping db args).db = db) := by
  refine ⟨?_, ?_, ?_⟩
  · intro db a0 k v b0 k2 hne
    cases hc : db.closed with
    | true =>
      rw [set_on_closed db hc]
      exact ⟨rfl, rfl, rfl⟩
    | false =>
      rw [set_on_open db hc]
      have hf : find k2.Bytes (upsert k.Bytes v.Bytes db.records) = find k2.Bytes db.records :=
        find_upsert_other _ _ _ _ hne
      refine ⟨hf, ?_, ?_⟩ <;>
        simp only [BadgerDB.Get, specEngine_view_open _ k2.Bytes hc,
          specEngine_view_open { db with records := upsert k.Bytes v.Bytes db.records }
            k2.Bytes hc, hf] <;>
        cases find k2.Bytes db.records <;> rfl
  · intro σ E db args
    rcases args with _ | ⟨a0, _ | ⟨a1, _ | ⟨a2, rest⟩⟩⟩ <;> simp [BadgerDB.Get]
    cases (E.View db a1.Bytes).1 <;> simp
  · intro σ db args
    rcases args with _ | ⟨a0, _ | ⟨a1, _ | ⟨a2, rest⟩⟩⟩ <;> simp [BadgerDB.Ping]

/-- Instance of C10: on the open database holding `B ↦ 2`, `SET A 1` leaves the record
of `B`, and `GET B` replies bulk `2` after it as before it. -/
theorem handlers_frame_witness :
    bulkB.Bytes ≠ bulkA.Bytes ∧
    find bulkB.Bytes (BadgerDB.Set specEngine storeB [tokSet, bulkA, bulk1]).db.records
      = find bulkB.Bytes storeB.records ∧
    (BadgerDB.Get specEngine (BadgerDB.Set specEngine storeB [tokSet, bulkA, bulk1]).db
        [tokGet, bulkB]).replies
      = (BadgerDB.Get specEngine storeB [tokGet, bulkB]).replies ∧
    (BadgerDB.Get specEngine storeB [tokGet, bulkB]).replies = [Reply.Bytes [50]] :=
  have h := handlers_frame.1 storeB tokSet bulkA bulk1 tokGet bulkB (by decide)
  ⟨by decide, h.1, h.2.1, by rw [get_on_open_found storeB rfl tokGet bulkB [50] rfl]⟩

end RedisBadger
